import Mathlib

/-!
Shallow embedding of the account discovery and synchronization engine of
`src/helpers/libcore.js`, and of the device-access layer `src/helpers/deviceAccess.js`,
of the ledger-live-desktop repository, with proofs about it.

Conventions of the embedding:
* machine integers (`toLong()` results) are modelled as `Int`;
* JS `undefined` flowing into a string interpolation is modelled by the
  string "undefined", and a possibly-undefined value by `Option`;
* asynchronous calls are modelled as pure reads of an explicit environment
  (the chain indexer / device state visible to the code);
* fallible code returns `Except`.
-/

/-- JS `s.indexOf(pat) >= 0`, i.e. substring containment: `pat` occurs as a
contiguous run of `s` at some offset. -/
def strContains (s pat : String) : Bool :=
  (List.range (s.toList.length + 1)).any fun i =>
    pat.toList.isPrefixOf (s.toList.drop i)

/-- `p` is a prefix of `s` (character-list version of string prefix). -/
def strStartsWith (s p : String) : Bool :=
  p.toList.isPrefixOf s.toList

/-- Splits a character list at a separator character, accumulating the
current field in reverse. -/
def splitCharAux (sep : Char) : List Char → List Char → List String
  | [], cur => [String.mk cur.reverse]
  | c :: rest, cur =>
    if c = sep then String.mk cur.reverse :: splitCharAux sep rest []
    else splitCharAux sep rest (c :: cur)

/-- Splits a string on a separator character (`s.split(sep)`). -/
def splitOnChar (sep : Char) (s : String) : List String :=
  splitCharAux sep s.toList []

namespace Libcore

/-- JS string interpolation of a value that may be `undefined`: a missing
numeric value prints as "undefined". -/
def jsShowOptNat : Option Nat → String
  | none => "undefined"
  | some n => toString n

/-- The fields of the currency descriptor (`getCryptoCurrencyById`) that
`libcore.js` reads: `coinType`, `supportsSegwit`, `units[0].magnitude`. -/
structure Currency where
  coinType : Nat
  supportsSegwit : Bool
  unitMagnitude : Nat
  deriving DecidableEq

/-- An entry of the `SPLITTED_CURRENCIES` table. -/
structure SplitConfig where
  coinType : Nat
  deriving DecidableEq

/-- The `SPLITTED_CURRENCIES` table of `libcore.js`: the two split currencies,
each with `coinType: 0`; `SPLITTED_CURRENCIES[c]` for any other id is
`undefined`, i.e. `none`. -/
def SPLITTED_CURRENCIES : String → Option SplitConfig
  | "bitcoin_cash" => some ⟨0⟩
  | "bitcoin_gold" => some ⟨0⟩
  | _ => none

/-- The operation type codes of the chain indexer (`core.OPERATION_TYPES`)
that `buildOperationRaw`'s map recognizes. -/
inductive CoreOperationType
  | SEND
  | RECEIVE
  deriving DecidableEq

/-- The projected operation type values. -/
inductive OperationType
  | IN
  | OUT
  deriving DecidableEq

/-- The string value ('OUT' / 'IN') of a projected operation type, as it
appears interpolated in the operation id. -/
def OperationType.jsString : OperationType → String
  | .IN => "IN"
  | .OUT => "OUT"

/-- The `OperationTypeMap` of `buildOperationRaw`: `SEND ↦ 'OUT'`,
`RECEIVE ↦ 'IN'`. -/
def OperationTypeMap : CoreOperationType → OperationType
  | .SEND => .OUT
  | .RECEIVE => .IN

/-- The fields of an indexer operation (`NJSOperation`) that
`buildOperationRaw` reads. `getAmount().toLong()` and `getFees().toLong()`
are exact integers; `getDate()` is modelled as an integer timestamp. -/
structure NJSOperation where
  hash : String
  operationType : CoreOperationType
  amount : Int
  fees : Int
  senders : List String
  recipients : List String
  blockHeight : Nat
  date : Int
  deriving DecidableEq

/-- The projected `OperationRaw` record. -/
structure OperationRaw where
  id : String
  hash : String
  type : OperationType
  value : Int
  fee : Int
  senders : List String
  recipients : List String
  blockHeight : Nat
  blockHash : Option String
  accountId : String
  date : Int
  deriving DecidableEq

/-- `buildOperationRaw` of `libcore.js`: projects one indexer operation.
`value` starts as the indexer amount and, when the mapped type is OUT, the
fee is added to it; the id is the interpolated string `xpub-hash-type`. -/
def buildOperationRaw (xpub : String) (op : NJSOperation) : OperationRaw :=
  let hash := op.hash
  let operationType := op.operationType
  let value := op.amount
  let fee := op.fees
  let type := OperationTypeMap operationType
  let value := if type = .OUT then value + fee else value
  let id := xpub ++ "-" ++ hash ++ "-" ++ type.jsString
  { id := id
    hash := hash
    type := type
    value := value
    fee := fee
    senders := op.senders
    recipients := op.recipients
    blockHeight := op.blockHeight
    blockHash := none
    accountId := xpub
    date := op.date }

/-- `encodeWalletName` of `libcore.js`: the identity key
`{publicKey}__{currencyId}[_segwit][_unsplit]`, where `_unsplit` is appended
exactly when `isUnsplit` holds and the currency is in `SPLITTED_CURRENCIES`
(`SPLITTED_CURRENCIES[currencyId] || null` is truthy). -/
def encodeWalletName (publicKey currencyId : String) (isSegwit isUnsplit : Bool) : String :=
  let splitConfig := if isUnsplit then SPLITTED_CURRENCIES currencyId else none
  publicKey ++ "__" ++ currencyId ++ (if isSegwit then "_segwit" else "")
    ++ (if splitConfig.isSome then "_unsplit" else "")

/-- The JS value from which line 134 of `libcore.js` destructures
`{ coinType }`: either the *number* `customOpts.coinType` (when `customOpts`
is truthy) or the currency object returned by `getCryptoCurrencyById`. -/
inductive CoinTypeSource
  | numberValue (n : Nat)
  | currencyObject (c : Currency)

/-- JS destructuring `const { coinType } = v`: a number has no `coinType`
property, so destructuring from a number yields `undefined`; the currency
object carries the property. -/
def jsDestructureCoinType : CoinTypeSource → Option Nat
  | .numberValue _ => none
  | .currencyObject c => some c.coinType

/-- The `customOpts` of `scanAccountsOnDeviceBySegwit`:
`isUnsplit && SPLITTED_CURRENCIES[currencyId] ? SPLITTED_CURRENCIES[currencyId] : null`. -/
def customOpts (currencyId : String) (isUnsplit : Bool) : Option SplitConfig :=
  if isUnsplit then SPLITTED_CURRENCIES currencyId else none

/-- The `coinType` bound by line 134 of `libcore.js`:
`const { coinType } = customOpts ? customOpts.coinType : getCryptoCurrencyById(currencyId)`.
When `customOpts` is truthy the destructuring source is the number
`customOpts.coinType`, so the bound `coinType` is `undefined`. -/
def scanCoinType (currencies : String → Currency) (currencyId : String)
    (isUnsplit : Bool) : Option Nat :=
  jsDestructureCoinType
    (match customOpts currencyId isUnsplit with
     | some opts => .numberValue opts.coinType
     | none => .currencyObject (currencies currencyId))

/-- The device derivation path of line 136: `{isSegwit ? 49 : 44}'/{coinType}'`. -/
def scanPath (isSegwit : Bool) (coinType : Option Nat) : String :=
  (if isSegwit then "49" else "44") ++ "\x27/" ++ jsShowOptNat coinType ++ "\x27"

/-- An entry of `getFreshPublicAddresses()`: its `toString()` and
`getDerivationPath()` values. -/
structure NJSAddress where
  str : String
  derivationPath : String
  deriving DecidableEq

/-- The chain-indexer-visible state of one account (`NJSAccount`) after
synchronization: everything `buildAccountRaw` and `syncAccount` read from
it. `operations` is what `queryOperations().complete().execute()` returns. -/
structure NJSAccountState where
  balance : Int
  xpub : String
  lastBlockHeight : Nat
  freshAddresses : List NJSAddress
  operations : List NJSOperation
  deriving DecidableEq, Inhabited

/-- The wallet-store interface (`NJSWallet`) as read by `libcore.js`:
`getName()`, the indexed account list, `getAccountCreationInfo(i).derivations`,
`getExtendedKeyAccountCreationInfo(i).extendedKeys`, and
`newAccountWithExtendedKeyInfo` (recreation of the account's chain state
from extended keys). -/
structure NJSWallet where
  name : String
  accounts : List NJSAccountState
  derivationsAt : Nat → List String
  extendedKeysAt : Nat → List String
  accountFromExtendedKeys : List String → NJSAccountState

/-- Modelled from the spec: `helpers/accountName` is not under `src/`.
§4.4: with zero operations the display name is "a 'new account' placeholder
name parameterized by currency and index". -/
def getNewAccountPlaceholderName (currencyId : String) (index : Nat) : String :=
  "New account " ++ currencyId ++ " " ++ toString index

/-- Modelled from the spec: `helpers/accountName` is not under `src/`.
§4.4: otherwise the name is "a placeholder name parameterized by currency,
index, a 'legacy-alongside-segwit' flag ... and the unsplit flag". -/
def getAccountPlaceholderName (currencyId : String) (index : Nat)
    (legacyAlongsideSegwit isUnsplit : Bool) : String :=
  "Account " ++ currencyId ++ " " ++ toString index
    ++ (if legacyAlongsideSegwit then " legacy" else "")
    ++ (if isUnsplit then " unsplit" else "")

/-- The constituent fields of the external account id
(`accountIdHelper.encode` input). -/
structure AccountIdFields where
  type : String
  version : String
  xpub : String
  walletName : String
  deriving DecidableEq

/-- Modelled from the spec: `helpers/accountId` is not under `src/`. §3: the
external account id "is derived from { schemaVersion, sourceTag,
extendedPublicKey, walletName } and must decode back to its constituent
fields"; modelled as a colon-separated encoding. -/
def accountIdEncode (f : AccountIdFields) : String :=
  f.type ++ ":" ++ f.version ++ ":" ++ f.xpub ++ ":" ++ f.walletName

/-- Modelled from the spec: decoding of the external account id; the first
three colon-separated fields, the remainder being the wallet name. -/
def accountIdDecode (s : String) : AccountIdFields :=
  match splitOnChar ':' s with
  | ty :: ver :: xp :: rest => ⟨ty, ver, xp, String.intercalate ":" rest⟩
  | _ => ⟨"", "", "", ""⟩

/-- The error kinds `libcore.js` can surface during projection and sync. -/
inductive LibcoreError
  | NoAddressesFound
  | SyncError (message : String)
  deriving DecidableEq

/-- `ops.sort((a, b) => b.getDate() - a.getDate())`: stable sort by date
descending (JS `Array.prototype.sort` is stable; ties keep indexer order). -/
def sortByDateDesc (ops : List NJSOperation) : List NJSOperation :=
  ops.mergeSort fun a b => b.date ≤ a.date

/-- The normalized `AccountRaw` record. `lastSyncDate` (an ISO rendering of
`new Date()` in the source) is modelled as the integer clock value read at
sync time. -/
structure AccountRaw where
  id : String
  xpub : String
  path : String
  name : String
  isSegwit : Bool
  freshAddress : String
  freshAddressPath : String
  balance : Int
  blockHeight : Nat
  archived : Bool
  index : Nat
  operations : List OperationRaw
  pendingOperations : List OperationRaw
  currencyId : String
  unitMagnitude : Nat
  lastSyncDate : Int
  deriving DecidableEq, Inhabited

/-- `buildAccountRaw` of `libcore.js`: reads the synced account state and the
operation list and produces the normalized record; throws `NoAddressesFound`
exactly when the indexer returned no fresh addresses. `now` is the clock read
by `new Date()`. -/
def buildAccountRaw (njsAccount : NJSAccountState) (isSegwit isUnsplit : Bool)
    (wallet : NJSWallet) (currencyId : String) (accountIndex : Nat)
    (ops : List NJSOperation) (currencies : String → Currency) (now : Int) :
    Except LibcoreError AccountRaw :=
  let balance := njsAccount.balance
  let jsCurrency := currencies currencyId
  let derivations := wallet.derivationsAt accountIndex
  let walletPath := derivations.getD 0 "undefined"
  let accountPath := derivations.getD 1 "undefined"
  let xpub := njsAccount.xpub
  let blockHeight := njsAccount.lastBlockHeight
  let rawAddresses := njsAccount.freshAddresses
  let addresses := rawAddresses.map fun njsAddress =>
    (njsAddress.str, accountPath ++ "/" ++ njsAddress.derivationPath)
  match addresses with
  | [] => .error .NoAddressesFound
  | firstAddress :: _ =>
    let freshAddress := firstAddress.1
    let freshAddressPath := firstAddress.2
    let operations := (sortByDateDesc ops).map (buildOperationRaw xpub)
    let currency := currencies currencyId
    let accountName := if operations.length = 0
      then getNewAccountPlaceholderName currencyId accountIndex
      else getAccountPlaceholderName currencyId accountIndex
        (currency.supportsSegwit && !isSegwit) isUnsplit
    .ok
      { id := accountIdEncode ⟨"libcore", "1", xpub, wallet.name⟩
        xpub := xpub
        path := walletPath
        name := accountName
        isSegwit := isSegwit
        freshAddress := freshAddress
        freshAddressPath := freshAddressPath
        balance := balance
        blockHeight := blockHeight
        archived := false
        index := accountIndex
        operations := operations
        pendingOperations := []
        currencyId := currencyId
        unitMagnitude := jsCurrency.unitMagnitude
        lastSyncDate := now }

/-- The synchronization event codes (`core.EVENT_CODE`) that
`coreSyncAccount`'s receiver inspects; all four are terminal. -/
inductive EventCode
  | UNDEFINED
  | SYNCHRONIZATION_FAILED
  | SYNCHRONIZATION_SUCCEED
  | SYNCHRONIZATION_SUCCEED_ON_PREVIOUSLY_EMPTY_ACCOUNT
  deriving DecidableEq

/-- The terminal event delivered on the synchronization event bus: its code
and the optional `EV_SYNC_ERROR_MESSAGE` payload string. -/
structure SyncEvent where
  code : EventCode
  payloadMessage : Option String
  deriving DecidableEq

/-- The rejection message of a failed sync:
`(payload && payload.getString('EV_SYNC_ERROR_MESSAGE')) || 'Sync failed'`
with the `' (EC_PRIV_KEY_INVALID_FORMAT)'` fragment removed. -/
def syncErrorMessage (payloadMessage : Option String) : String :=
  (payloadMessage.getD "Sync failed").replace " (EC_PRIV_KEY_INVALID_FORMAT)" ""

/-- The settled state of one `coreSyncAccount` promise.
`subscribersAtSettle` counts the receivers subscribed to the event bus at
the moment the promise settles (the code subscribes exactly one and the
failure path rejects without unsubscribing); `resolvedWithUnsub` holds when
the promise resolved with the unsubscribe thunk (the success codes), which
the caller may or may not invoke. -/
structure CoreSyncRun where
  outcome : Except LibcoreError Unit
  subscribersAtSettle : Nat
  resolvedWithUnsub : Bool

/-- `coreSyncAccount` of `libcore.js`, as a function of the terminal event:
one receiver is created and subscribed; on the `UNDEFINED` /
`SYNCHRONIZATION_FAILED` codes the promise rejects (no unsubscribe); on the
success codes it resolves with a thunk that unsubscribes when invoked. -/
def coreSyncAccount (ev : SyncEvent) : CoreSyncRun :=
  let subscribers := 1
  match ev.code with
  | .UNDEFINED | .SYNCHRONIZATION_FAILED =>
    { outcome := .error (.SyncError (syncErrorMessage ev.payloadMessage)),
      subscribersAtSettle := subscribers, resolvedWithUnsub := false }
  | .SYNCHRONIZATION_SUCCEED | .SYNCHRONIZATION_SUCCEED_ON_PREVIOUSLY_EMPTY_ACCOUNT =>
    { outcome := .ok (), subscribersAtSettle := subscribers, resolvedWithUnsub := true }

/-- Receivers still subscribed after `syncAccount`'s call site
(`const unsub = await coreSyncAccount(...); unsub()`): the thunk is invoked
on resolution; a rejection propagates before `unsub()` is reached. -/
def syncAccountSubscribersAfter (ev : SyncEvent) : Nat :=
  let run := coreSyncAccount ev
  if run.resolvedWithUnsub then run.subscribersAtSettle - 1 else run.subscribersAtSettle

/-- Receivers still subscribed after `scanNextAccount`'s call site
(`await coreSyncAccount(core, njsAccount)`): the resolved thunk is
discarded, and a rejection propagates; unsubscribe is never invoked. -/
def scanSubscribersAfter (ev : SyncEvent) : Nat :=
  (coreSyncAccount ev).subscribersAtSettle

/-- The environment of one discovery pass as `scanNextAccount` sees it:
the wallet, the post-sync chain state of the account at each index
(`wallet.getAccount(i)` below the known count, `createAccount` above; both
are then synced and read identically), and the pass flags. `now` is the
clock read by `buildAccountRaw`. -/
structure ScanEnv where
  wallet : NJSWallet
  accountAt : Nat → NJSAccountState
  currencyId : String
  currencies : String → Currency
  isSegwit : Bool
  isUnsplit : Bool
  showNewAccount : Bool
  now : Int

/-- The observable outcome of one discovery pass: the accumulated result
array, the `onAccountScanned` invocations in order, and the account indices
the loop visited. -/
structure ScanResult where
  accounts : List AccountRaw
  scanned : List AccountRaw
  probed : List Nat
  deriving DecidableEq

/-- `scanNextAccount` of `libcore.js`, with explicit fuel (the JS recursion
has no static bound; `none` means the fuel ran out before the pass
terminated). Each call visits its index, syncs it, builds the raw account,
fires `onAccountScanned` and pushes the account when it is non-empty or
`showNewAccount` is set, returns when the operation list is empty, and
otherwise recurses on `accountIndex + 1`. -/
def scanNextAccount (env : ScanEnv) : Nat → Nat → ScanResult →
    Option (Except LibcoreError ScanResult)
  | 0, _, _ => none
  | fuel + 1, accountIndex, acc =>
    let njsAccount := env.accountAt accountIndex
    let acc := { acc with probed := acc.probed ++ [accountIndex] }
    let ops := njsAccount.operations
    match buildAccountRaw njsAccount env.isSegwit env.isUnsplit env.wallet
        env.currencyId accountIndex ops env.currencies env.now with
    | .error e => some (.error e)
    | .ok account =>
      let isEmpty := ops.length == 0
      let acc := if !isEmpty || env.showNewAccount then
          { acc with accounts := acc.accounts ++ [account],
                     scanned := acc.scanned ++ [account] }
        else acc
      if isEmpty then some (.ok acc)
      else scanNextAccount env fuel (accountIndex + 1) acc

/-- The `buildAccountRaw` call `scanNextAccount` makes at index `i` of a
pass. -/
def buildAt (env : ScanEnv) (i : Nat) : Except LibcoreError AccountRaw :=
  buildAccountRaw (env.accountAt i) env.isSegwit env.isUnsplit env.wallet
    env.currencyId i (env.accountAt i).operations env.currencies env.now

/-- The ok value of `buildAt` (defaulted; used only at indices whose
fresh-address list is nonempty, where `buildAt` succeeds). -/
def buildAtD (env : ScanEnv) (i : Nat) : AccountRaw :=
  (buildAt env i).toOption.getD default

/-- The flag record of one discovery pass, as passed to
`scanAccountsOnDeviceBySegwit`. -/
structure PassParams where
  isSegwit : Bool
  isUnsplit : Bool
  showNewAccount : Bool
  deriving DecidableEq

/-- The legacy (non-segwit, non-unsplit) pass: its `showNewAccount` flag is
`!!SHOW_LEGACY_NEW_ACCOUNT || !currency.supportsSegwit`. -/
def legacyPassParams (SHOW_LEGACY_NEW_ACCOUNT : Bool) (currency : Currency) : PassParams :=
  ⟨false, false, SHOW_LEGACY_NEW_ACCOUNT || !currency.supportsSegwit⟩

/-- The segwit pass: `showNewAccount` is hard-coded `true`. -/
def segwitPassParams : PassParams := ⟨true, false, true⟩

/-- The unsplit legacy pass: `showNewAccount` is hard-coded `false`. -/
def unsplitLegacyPassParams : PassParams := ⟨false, true, false⟩

/-- The unsplit segwit pass: `showNewAccount` is hard-coded `false`. -/
def unsplitSegwitPassParams : PassParams := ⟨true, true, false⟩

/-- `scanAccountsOnDevice` of `libcore.js`, abstracted over the execution of
one pass (`runPass p` stands for `await scanAccountsOnDeviceBySegwit({...p})`):
the accumulation into `allAccounts` and the conditions follow the source.
`SHOW_LEGACY_NEW_ACCOUNT` is the `config/constants` flag. -/
def scanAccountsOnDevice (SHOW_LEGACY_NEW_ACCOUNT : Bool)
    (currencies : String → Currency) (currencyId : String)
    (runPass : PassParams → List AccountRaw) : List AccountRaw :=
  let currency := currencies currencyId
  let allAccounts : List AccountRaw := []
  let nonSegwitAccounts :=
    runPass (legacyPassParams SHOW_LEGACY_NEW_ACCOUNT currency)
  let allAccounts := allAccounts ++ nonSegwitAccounts
  let allAccounts := if currency.supportsSegwit then
      allAccounts ++ runPass segwitPassParams
    else allAccounts
  if (SPLITTED_CURRENCIES currencyId).isSome then
    let allAccounts := allAccounts ++ runPass unsplitLegacyPassParams
    if currency.supportsSegwit then
      allAccounts ++ runPass unsplitSegwitPassParams
    else allAccounts
  else allAccounts

/-- The ordered list of passes `scanAccountsOnDevice` runs. -/
def passesOf (SHOW_LEGACY_NEW_ACCOUNT : Bool) (currencies : String → Currency)
    (currencyId : String) : List PassParams :=
  let currency := currencies currencyId
  [legacyPassParams SHOW_LEGACY_NEW_ACCOUNT currency]
    ++ (if currency.supportsSegwit then [segwitPassParams] else [])
    ++ (if (SPLITTED_CURRENCIES currencyId).isSome then
          [unsplitLegacyPassParams]
            ++ (if currency.supportsSegwit then [unsplitSegwitPassParams] else [])
        else [])

/-- The wallet-pool interface (`core.getPoolInstance()`): wallet lookup by
identity key (`none` models the lookup throwing: the backing record is
lost), and wallet creation from identity key, currency and configuration. -/
structure PoolState where
  getWallet : String → Option NJSWallet
  createWallet : String → String → List (String × String) → NJSWallet

/-- The wallet configuration map built inside `getOrCreateWallet` (lines
314-326): here `coinType` is read correctly from the split table
(`splitConfig.coinType`), or is the literal placeholder `<coin_type>`. -/
def walletConfigOf (currencyId : String) (isSegwit isUnsplit : Bool) :
    List (String × String) :=
  let splitConfig := if isUnsplit then SPLITTED_CURRENCIES currencyId else none
  let coinType := match splitConfig with
    | some c => toString c.coinType
    | none => "<coin_type>"
  if isSegwit then
    [("KEYCHAIN_ENGINE", "BIP49_P2SH"),
     ("KEYCHAIN_DERIVATION_SCHEME",
      "49\x27/" ++ coinType ++ "\x27/<account>\x27/<node>/<address>")]
  else match splitConfig with
    | some _ =>
      [("KEYCHAIN_DERIVATION_SCHEME",
        "44\x27/" ++ coinType ++ "\x27/<account>\x27/<node>/<address>")]
    | none => []

/-- `getOrCreateWallet` of `libcore.js`: return the wallet at the identity
key, or create it with the computed configuration when the lookup throws. -/
def getOrCreateWallet (pool : PoolState) (WALLET_IDENTIFIER currencyId : String)
    (isSegwit isUnsplit : Bool) : NJSWallet :=
  match pool.getWallet WALLET_IDENTIFIER with
  | some wallet => wallet
  | none =>
    pool.createWallet WALLET_IDENTIFIER currencyId
      (walletConfigOf currencyId isSegwit isUnsplit)

/-- Modelled from the spec: `helpers/bip32` is not under `src/`. §6: the
segwit variant uses device derivation paths beginning `49'/`; an account is
recognized as segwit by its wallet derivation path. -/
def isSegwitAccount (account : AccountRaw) : Bool :=
  strStartsWith account.path "49\x27"

/-- Modelled from the spec: `helpers/bip32` is not under `src/`. Glossary:
"'unsplit' denotes pre-fork derivation retained after a chain split" — the
account's derivation path uses the split table's coin type. -/
def isUnsplitAccount (account : AccountRaw) (splitConfig : Option SplitConfig) : Bool :=
  match splitConfig with
  | none => false
  | some c => strContains account.path ("/" ++ toString c.coinType ++ "\x27")

/-- The trace and result of one `syncAccount` call: the value bound to
`njsWallet` / `njsAccount`, whether each was recreated, and the
`logger.warn` messages in order. -/
structure SyncRun where
  result : Except LibcoreError AccountRaw
  walletUsed : NJSWallet
  accountUsed : NJSAccountState
  recreatedWallet : Bool
  recreatedAccount : Bool
  warnings : List String

/-- The wallet and account resolution of `syncAccount` (lines 468-493): the
wallet is looked up by the decoded wallet name and recreated through
`getOrCreateWallet` when the lookup throws (with a warning logged); the
account is then looked up by index and, when that throws, recreated through
`newAccountWithExtendedKeyInfo` after pushing the decoded xpub onto
`getExtendedKeyAccountCreationInfo(index).extendedKeys` (with a warning
logged). Returns
`(njsWallet, njsAccount, recreatedWallet, recreatedAccount, warnings)`. -/
def syncAccountResolve (pool : PoolState) (rawAccount : AccountRaw) :
    NJSWallet × NJSAccountState × Bool × Bool × List String :=
  let decodedAccountId := accountIdDecode rawAccount.id
  let isSegwit := isSegwitAccount rawAccount
  let isUnsplit := isUnsplitAccount rawAccount (SPLITTED_CURRENCIES rawAccount.currencyId)
  let walletStep :=
    match pool.getWallet decodedAccountId.walletName with
    | some w => (w, false, ([] : List String))
    | none =>
      (getOrCreateWallet pool decodedAccountId.walletName rawAccount.currencyId
        isSegwit isUnsplit, true, ["Have to reimport the account..."])
  let njsWallet := walletStep.1
  let accountStep :=
    match njsWallet.accounts[rawAccount.index]? with
    | some a => (a, false, walletStep.2.2)
    | none =>
      let extendedKeys := njsWallet.extendedKeysAt rawAccount.index ++ [decodedAccountId.xpub]
      (njsWallet.accountFromExtendedKeys extendedKeys, true,
       walletStep.2.2 ++ ["Have to recreate the account..."])
  (njsWallet, accountStep.1, walletStep.2.1, accountStep.2.1, accountStep.2.2)

/-- The result of `syncAccount` (lines 495-517) once the wallet and account
are resolved: reject when the synchronization promise rejects; otherwise
query the operations and balance, build the raw account, and overwrite its
balance with the queried one. -/
def syncAccountResult (njsWallet : NJSWallet) (njsAccount : NJSAccountState)
    (rawAccount : AccountRaw) (ev : SyncEvent) (now : Int)
    (currencies : String → Currency) : Except LibcoreError AccountRaw :=
  let isSegwit := isSegwitAccount rawAccount
  let isUnsplit := isUnsplitAccount rawAccount (SPLITTED_CURRENCIES rawAccount.currencyId)
  match (coreSyncAccount ev).outcome with
  | .error e => .error e
  | .ok _ =>
    let ops := njsAccount.operations
    let njsBalance := njsAccount.balance
    match buildAccountRaw njsAccount isSegwit isUnsplit njsWallet
        rawAccount.currencyId rawAccount.index ops currencies now with
    | .error e => .error e
    | .ok syncedRawAccount => .ok { syncedRawAccount with balance := njsBalance }

/-- `syncAccount` of `libcore.js`: resolution (with recovery) followed by
synchronization and snapshot rebuild. The terminal sync event is part of
the environment (`ev`); `now` is the clock. -/
def syncAccount (pool : PoolState) (rawAccount : AccountRaw) (ev : SyncEvent)
    (now : Int) (currencies : String → Currency) : SyncRun :=
  let resolved := syncAccountResolve pool rawAccount
  { result := syncAccountResult resolved.1 resolved.2.1 rawAccount ev now currencies,
    walletUsed := resolved.1,
    accountUsed := resolved.2.1,
    recreatedWallet := resolved.2.2.1,
    recreatedAccount := resolved.2.2.2.1,
    warnings := resolved.2.2.2.2 }

/-! Concrete test fixtures, used to instantiate the theorems below on
closed inputs. -/

/-- Fixture: a currency table (coinType 0, no segwit, magnitude 8). -/
def wCurrencies : String → Currency := fun _ => ⟨0, false, 8⟩

/-- Fixture: one indexer operation. -/
def wScanOp : NJSOperation :=
  { hash := "h0", operationType := .RECEIVE, amount := 4, fees := 1,
    senders := ["s"], recipients := ["r"], blockHeight := 3, date := 11 }

/-- Fixture: a wallet with no stored accounts. -/
def wWallet : NJSWallet :=
  { name := "w", accounts := [], derivationsAt := fun _ => ["wp", "wp/ap"],
    extendedKeysAt := fun _ => [], accountFromExtendedKeys := fun _ => default }

/-- Fixture: a pass whose index-0 account has one operation and whose
index-1 account has none; both have a fresh address. -/
def wScanEnv : ScanEnv :=
  { wallet := wWallet,
    accountAt := fun i =>
      if i = 0 then
        { balance := 4, xpub := "X0", lastBlockHeight := 9,
          freshAddresses := [⟨"a0", "0/0"⟩], operations := [wScanOp] }
      else
        { balance := 0, xpub := "X1", lastBlockHeight := 9,
          freshAddresses := [⟨"a1", "0/1"⟩], operations := [] },
    currencyId := "bitcoin", currencies := wCurrencies,
    isSegwit := false, isUnsplit := false, showNewAccount := true, now := 0 }

/-- Fixture: a segwit pass (flags of `segwitPassParams`) whose index-0
account is already empty. -/
def wSegwitScanEnv : ScanEnv :=
  { wallet := wWallet,
    accountAt := fun _ =>
      { balance := 0, xpub := "XS", lastBlockHeight := 9,
        freshAddresses := [⟨"as", "0/0"⟩], operations := [] },
    currencyId := "bitcoin_cash", currencies := fun _ => ⟨0, true, 8⟩,
    isSegwit := segwitPassParams.isSegwit, isUnsplit := segwitPassParams.isUnsplit,
    showNewAccount := segwitPassParams.showNewAccount, now := 0 }

/-- Fixture: an unsplit legacy pass (flags of `unsplitLegacyPassParams`)
whose index-0 account is empty. -/
def wUnsplitScanEnv : ScanEnv :=
  { wallet := wWallet,
    accountAt := fun _ =>
      { balance := 0, xpub := "XU", lastBlockHeight := 9,
        freshAddresses := [⟨"au", "0/0"⟩], operations := [] },
    currencyId := "bitcoin_cash", currencies := fun _ => ⟨0, true, 8⟩,
    isSegwit := unsplitLegacyPassParams.isSegwit,
    isUnsplit := unsplitLegacyPassParams.isUnsplit,
    showNewAccount := unsplitLegacyPassParams.showNewAccount, now := 0 }

/-- Fixture: an account chain state with one operation. -/
def wSyncAccountState : NJSAccountState :=
  { balance := 42, xpub := "X0", lastBlockHeight := 100,
    freshAddresses := [⟨"a0", "0/0"⟩], operations := [wScanOp] }

/-- Fixture: a wallet holding that account at index 0. -/
def wSyncWallet : NJSWallet :=
  { name := "X0__bitcoin", accounts := [wSyncAccountState],
    derivationsAt := fun _ => ["wp", "wp/ap"], extendedKeysAt := fun _ => [],
    accountFromExtendedKeys := fun _ => wSyncAccountState }

/-- Fixture: a pool resolving exactly that wallet. -/
def wSyncPool : PoolState :=
  { getWallet := fun n => if n = "X0__bitcoin" then some wSyncWallet else none,
    createWallet := fun _ _ _ => wSyncWallet }

/-- Fixture: the stored raw account pointing at that wallet. -/
def wSyncRaw : AccountRaw :=
  { id := accountIdEncode ⟨"libcore", "1", "X0", "X0__bitcoin"⟩,
    xpub := "X0", path := "wp", name := "acc", isSegwit := false,
    freshAddress := "a0", freshAddressPath := "wp/ap/0/0", balance := 42,
    blockHeight := 100, archived := false, index := 0, operations := [],
    pendingOperations := [], currencyId := "bitcoin", unitMagnitude := 8,
    lastSyncDate := 0 }

/-- Fixture: the ok value of the fixture sync at clock `t` (defaulted). -/
def wSyncOk (t : Int) : AccountRaw :=
  ((syncAccount wSyncPool wSyncRaw ⟨.SYNCHRONIZATION_SUCCEED, none⟩ t
    wCurrencies).result).toOption.getD default

/-- Fixture: a pool that has lost every wallet record; creation yields a
wallet with no stored accounts whose extended-key recreation produces the
one-operation account. -/
def wLostPool : PoolState :=
  { getWallet := fun _ => none,
    createWallet := fun n _ _ =>
      { name := n, accounts := [], derivationsAt := fun _ => ["wp", "wp/ap"],
        extendedKeysAt := fun _ => [],
        accountFromExtendedKeys := fun _ => wSyncAccountState } }

end Libcore

namespace DeviceAccess

/-- A JS error as seen across the transport boundary: its constructor name
and its message. `createCustomErrorClass('DisconnectedDevice')` produces
errors with name `DisconnectedDevice`. -/
structure JsErr where
  name : String
  message : String
  deriving DecidableEq

/-- `new DisconnectedDevice(e.message)`. -/
def DisconnectedDevice (message : String) : JsErr :=
  ⟨"DisconnectedDevice", message⟩

/-- The test `e && e.message && e.message.indexOf('HID') >= 0` of `mapError`. -/
def hasHIDMessage (e : JsErr) : Bool :=
  strContains e.message "HID"

/-- `mapError` of `deviceAccess.js`: an error whose message contains `HID`
is rethrown as `DisconnectedDevice` with the same message; any other error
is rethrown unchanged. -/
def mapError (e : JsErr) : JsErr :=
  if hasHIDMessage e then DisconnectedDevice e.message else e

/-- An open transport handle. -/
structure Transport where
  id : Nat
  deriving DecidableEq

/-- The environment of one `withDevice(devicePath)(job)` run: the outcome of
each successive `TransportNodeHid.open(devicePath)` attempt, and the job's
outcome when run against an open transport. -/
structure DeviceEnv (α : Type) where
  openResults : Nat → Except JsErr Transport
  jobRun : Transport → Except JsErr α

/-- The externally observable events of one run, in order. -/
inductive WDEvent
  | openFailed
  | openSucceeded (t : Transport)
  | jobSettled
  | closedTransport (t : Transport)
  | surfaced
  deriving DecidableEq

/-- Modelled from the spec: the `retry` helper (`helpers/promise`) is not
under `src/`. §4.1: "Open failures are retried once with a fixed fixed-delay
backoff" — with `maxRetry: 1` the open is attempted at most twice and the
last failure is surfaced. Returns the outcome, the number of attempts made,
and the attempt events. -/
def retryOpen (openResults : Nat → Except JsErr Transport) :
    Except JsErr Transport × Nat × List WDEvent :=
  match openResults 0 with
  | .ok t => (.ok t, 1, [.openSucceeded t])
  | .error _ =>
    match openResults 1 with
    | .ok t => (.ok t, 2, [.openFailed, .openSucceeded t])
    | .error e => (.error e, 2, [.openFailed, .openFailed])

/-- The observable run of `withDevice(devicePath)(job)`: the surfaced
result, the number of open attempts, the transport opened (if any), the
transports closed, and the ordered event trace. -/
structure WDRun (α : Type) where
  result : Except JsErr α
  openAttempts : Nat
  opened : Option Transport
  closed : List Transport
  trace : List WDEvent

/-- `withDevice` of `deviceAccess.js`, for one queued job: the transport is
opened through `retry` (one retry); on open failure the error propagates
unmapped; on success the job runs with `.catch(mapError)` and the transport
is closed in a `finally` before the result is surfaced to the caller. -/
def withDevice {α : Type} (env : DeviceEnv α) : WDRun α :=
  match retryOpen env.openResults with
  | (.error e, n, evs) =>
    { result := .error e, openAttempts := n, opened := none, closed := [],
      trace := evs ++ [.surfaced] }
  | (.ok t, n, evs) =>
    let jobResult : Except JsErr α :=
      match env.jobRun t with
      | .ok a => .ok a
      | .error e => .error (mapError e)
    { result := jobResult, openAttempts := n, opened := some t, closed := [t],
      trace := evs ++ [.jobSettled, .closedTransport t, .surfaced] }

/-- Fixture: a device whose open attempts always fail with an HID-disconnect
message, and a trivial job. -/
def wOpenFailEnv : DeviceEnv Unit :=
  { openResults := fun _ => .error ⟨"Error", "cannot open HID device"⟩,
    jobRun := fun _ => .ok () }

/-- Fixture: a device that opens on the second attempt, and a job failing
with an HID-disconnect message. -/
def wRetryEnv : DeviceEnv Nat :=
  { openResults := fun n => if n = 0 then .error ⟨"Error", "busy"⟩ else .ok ⟨7⟩,
    jobRun := fun _ => .error ⟨"TransportError", "HID gone"⟩ }

end DeviceAccess

open Libcore DeviceAccess

/-- The split-currency table holds exactly bitcoin_cash and bitcoin_gold. -/
theorem SPLITTED_CURRENCIES_isSome_iff (c : String) :
    (SPLITTED_CURRENCIES c).isSome = true ↔ c = "bitcoin_cash" ∨ c = "bitcoin_gold" := by
  unfold SPLITTED_CURRENCIES
  split <;> simp_all

/-- C3: for every projected operation, if the indexer type maps to OUT then
the externally visible value equals the indexer amount plus the fee, and if
it maps to IN the value equals the indexer amount unchanged (exact integer
arithmetic). -/
theorem C3_out_adds_fee_in_unchanged (xpub : String) (op : NJSOperation) :
    ((buildOperationRaw xpub op).type = .OUT →
      (buildOperationRaw xpub op).value = op.amount + op.fees) ∧
    ((buildOperationRaw xpub op).type = .IN →
      (buildOperationRaw xpub op).value = op.amount) := by
  cases h : op.operationType <;>
    simp [buildOperationRaw, OperationTypeMap, h]

/-- C3 witness: concrete SEND and RECEIVE operations. -/
theorem C3_out_adds_fee_in_unchanged_witness :
    (buildOperationRaw "xp"
      { hash := "h", operationType := .SEND, amount := 10, fees := 3,
        senders := [], recipients := [], blockHeight := 5, date := 0 }).value = 10 + 3 ∧
    (buildOperationRaw "xp"
      { hash := "h2", operationType := .RECEIVE, amount := 7, fees := 2,
        senders := [], recipients := [], blockHeight := 5, date := 0 }).value = 7 :=
  ⟨(C3_out_adds_fee_in_unchanged "xp"
      { hash := "h", operationType := .SEND, amount := 10, fees := 3,
        senders := [], recipients := [], blockHeight := 5, date := 0 }).1 (by decide),
   (C3_out_adds_fee_in_unchanged "xp"
      { hash := "h2", operationType := .RECEIVE, amount := 7, fees := 2,
        senders := [], recipients := [], blockHeight := 5, date := 0 }).2 (by decide)⟩

/-- C6: projection selects the fresh address and its path from the first
entry of the indexer's fresh-address list, and fails with `NoAddressesFound`
iff that list is empty. -/
theorem C6_fresh_address_or_NoAddressesFound (njsAccount : NJSAccountState)
    (isSegwit isUnsplit : Bool) (wallet : NJSWallet) (currencyId : String)
    (accountIndex : Nat) (ops : List NJSOperation)
    (currencies : String → Currency) (now : Int) :
    (buildAccountRaw njsAccount isSegwit isUnsplit wallet currencyId accountIndex
        ops currencies now = .error .NoAddressesFound ↔
      njsAccount.freshAddresses = []) ∧
    (∀ a rest, njsAccount.freshAddresses = a :: rest →
      (buildAccountRaw njsAccount isSegwit isUnsplit wallet currencyId
          accountIndex ops currencies now).map
          (fun acc => (acc.freshAddress, acc.freshAddressPath))
        = .ok (a.str,
            (wallet.derivationsAt accountIndex).getD 1 "undefined" ++ "/" ++ a.derivationPath)) := by
  constructor
  · cases h : njsAccount.freshAddresses <;> simp [buildAccountRaw, h]
  · intro a rest h
    simp [buildAccountRaw, h, Except.map]

/-- C6 witness: a concrete one-address account projects to that first
address and its derived path. -/
theorem C6_fresh_address_or_NoAddressesFound_witness :
    (buildAccountRaw
        { balance := 5, xpub := "XP", lastBlockHeight := 9,
          freshAddresses := [⟨"addr0", "0/0"⟩], operations := [] }
        false false
        { name := "w", accounts := [], derivationsAt := fun _ => ["wp", "wp/ap"],
          extendedKeysAt := fun _ => [], accountFromExtendedKeys := fun _ => default }
        "bitcoin" 0 [] (fun _ => ⟨0, false, 8⟩) 0).map
        (fun acc => (acc.freshAddress, acc.freshAddressPath))
      = .ok ("addr0", (["wp", "wp/ap"].getD 1 "undefined") ++ "/" ++ "0/0") :=
  (C6_fresh_address_or_NoAddressesFound
      { balance := 5, xpub := "XP", lastBlockHeight := 9,
        freshAddresses := [⟨"addr0", "0/0"⟩], operations := [] }
      false false
      { name := "w", accounts := [], derivationsAt := fun _ => ["wp", "wp/ap"],
        extendedKeysAt := fun _ => [], accountFromExtendedKeys := fun _ => default }
      "bitcoin" 0 [] (fun _ => ⟨0, false, 8⟩) 0).2 ⟨"addr0", "0/0"⟩ [] rfl

/-- C2: every discovery run starts with the legacy pass; the segwit pass is
run iff the currency supports segwit; the unsplit legacy pass (and, for a
segwit-capable currency, the unsplit segwit pass) is run iff the currency is
in the fixed split set {bitcoin_cash, bitcoin_gold}; and the returned list
is the concatenation of the passes' results in the order legacy, segwit,
unsplit-legacy, unsplit-segwit. -/
theorem C2_pass_structure (SHOW_LEGACY_NEW_ACCOUNT : Bool)
    (currencies : String → Currency) (currencyId : String)
    (runPass : PassParams → List AccountRaw) :
    scanAccountsOnDevice SHOW_LEGACY_NEW_ACCOUNT currencies currencyId runPass
      = ((passesOf SHOW_LEGACY_NEW_ACCOUNT currencies currencyId).map runPass).flatten ∧
    passesOf SHOW_LEGACY_NEW_ACCOUNT currencies currencyId
      = [legacyPassParams SHOW_LEGACY_NEW_ACCOUNT (currencies currencyId)]
        ++ (if (currencies currencyId).supportsSegwit then [segwitPassParams] else [])
        ++ (if currencyId = "bitcoin_cash" ∨ currencyId = "bitcoin_gold" then
              [unsplitLegacyPassParams]
                ++ (if (currencies currencyId).supportsSegwit then
                      [unsplitSegwitPassParams]
                    else [])
            else []) := by
  have hsplit := SPLITTED_CURRENCIES_isSome_iff currencyId
  constructor
  · by_cases hseg : (currencies currencyId).supportsSegwit = true <;>
      by_cases hs : (SPLITTED_CURRENCIES currencyId).isSome = true <;>
        simp [scanAccountsOnDevice, passesOf, hseg, hs]
  · by_cases hseg : (currencies currencyId).supportsSegwit = true <;>
      by_cases hs : (SPLITTED_CURRENCIES currencyId).isSome = true <;>
        simp [passesOf, hseg, hs, ← hsplit]

/-- C9 (evaluation of the code at the failing input): for the unsplit legacy
pass of bitcoin_cash, line 134 destructures `{ coinType }` from the *number*
`SPLITTED_CURRENCIES['bitcoin_cash'].coinType`, so the bound coinType is
undefined and the device derivation path is `44'/undefined'` instead of the
table's `44'/0'`; the wallet identity key is still correctly suffixed
`_unsplit`, and non-unsplit passes read the coinType from the currency. -/
theorem C9_unsplit_coinType_undefined :
    scanCoinType (fun _ => ⟨0, true, 8⟩) "bitcoin_cash" true = none ∧
    scanPath false (scanCoinType (fun _ => ⟨0, true, 8⟩) "bitcoin_cash" true)
      = "44\x27/undefined\x27" ∧
    scanPath false (scanCoinType (fun _ => ⟨0, true, 8⟩) "bitcoin_cash" false)
      = "44\x27/0\x27" ∧
    scanPath true (scanCoinType (fun _ => ⟨5, true, 8⟩) "bitcoin" false)
      = "49\x27/5\x27" ∧
    encodeWalletName "PK" "bitcoin_cash" false true = "PK__bitcoin_cash_unsplit" := by
  decide

/-- At an index whose fresh-address list is nonempty, the per-index account
build succeeds with the defaulted ok value. -/
theorem buildAt_eq_ok (env : ScanEnv) (i : Nat)
    (h : (env.accountAt i).freshAddresses ≠ []) :
    buildAt env i = .ok (buildAtD env i) := by
  cases hb : buildAt env i with
  | ok v => simp [buildAtD, hb, Except.toOption]
  | error e =>
    exfalso
    cases hf : (env.accountAt i).freshAddresses with
    | nil => exact h hf
    | cons a rest => simp [buildAt, buildAccountRaw, hf] at hb

/-- Closed form of a discovery pass: with `e` the first index (from `i` on)
whose post-sync account has no operations, and fresh addresses present up to
`e`, the pass visits exactly indices `i..e`, pushes and reports the accounts
of the non-empty indices in order, and pushes/reports the terminal empty
account iff `showNewAccount` is set. -/
theorem scanNextAccount_closed_form (env : ScanEnv) (e : Nat)
    (hempty : (env.accountAt e).operations = [])
    (hnonempty : ∀ j, j < e → (env.accountAt j).operations ≠ [])
    (haddr : ∀ j, j ≤ e → (env.accountAt j).freshAddresses ≠ []) :
    ∀ fuel i acc, i ≤ e → e - i < fuel →
      scanNextAccount env fuel i acc = some (.ok
        { accounts := acc.accounts ++ ((List.range' i (e - i)).map (buildAtD env)
            ++ if env.showNewAccount then [buildAtD env e] else []),
          scanned := acc.scanned ++ ((List.range' i (e - i)).map (buildAtD env)
            ++ if env.showNewAccount then [buildAtD env e] else []),
          probed := acc.probed ++ List.range' i (e - i + 1) }) := by
  intro fuel
  induction fuel with
  | zero => intro i acc _ hfuel; omega
  | succ fuel ih =>
    intro i acc hie hfuel
    have hb := buildAt_eq_ok env i (haddr i hie)
    rw [buildAt] at hb
    by_cases hcase : i = e
    · subst hcase
      rw [hempty] at hb
      cases hshow : env.showNewAccount <;>
        simp [scanNextAccount, hempty, hb, hshow, Nat.sub_self, List.range'_succ]
    · have hlt : i < e := Nat.lt_of_le_of_ne hie hcase
      have hne := hnonempty i hlt
      have hlen : ((env.accountAt i).operations.length == 0) = false := by
        cases h' : (env.accountAt i).operations with
        | nil => exact absurd h' hne
        | cons _ _ => rfl
      have hstep : e - i = (e - (i + 1)) + 1 := by omega
      simp only [scanNextAccount, hb, hlen, Bool.not_false, Bool.true_or,
        if_pos, if_neg, Bool.false_eq_true, not_false_eq_true]
      rw [ih (i + 1) _ (by omega) (by omega)]
      simp [hstep, List.range'_succ, List.append_assoc]

/-- C1: a discovery pass stops immediately after the first synced account
with zero operations — index `e + 1` is never probed — and every scanned
account with at least one operation is included in the result, reported
through the `onAccountScanned` progress callback, and followed by the probe
of the next index. -/
theorem C1_scan_stops_at_first_empty (env : ScanEnv) (e fuel : Nat)
    (hempty : (env.accountAt e).operations = [])
    (hnonempty : ∀ j, j < e → (env.accountAt j).operations ≠ [])
    (haddr : ∀ j, j ≤ e → (env.accountAt j).freshAddresses ≠ [])
    (hfuel : e < fuel) :
    ∃ r, scanNextAccount env fuel 0 ⟨[], [], []⟩ = some (.ok r) ∧
      r.probed = List.range (e + 1) ∧
      e + 1 ∉ r.probed ∧
      ∀ j, j < e →
        buildAtD env j ∈ r.accounts ∧ buildAtD env j ∈ r.scanned ∧
          (j + 1) ∈ r.probed := by
  refine ⟨_, scanNextAccount_closed_form env e hempty hnonempty haddr fuel 0
    ⟨[], [], []⟩ (Nat.zero_le e) (by omega), ?_, ?_, ?_⟩
  · simp [List.range_eq_range']
  · simp [List.mem_range']
  · intro j hj
    have hmem : buildAtD env j ∈ (List.range' 0 (e - 0)).map (buildAtD env) :=
      List.mem_map_of_mem (buildAtD env) (by simp [List.mem_range']; omega)
    refine ⟨?_, ?_, ?_⟩
    · simp only [List.nil_append]
      exact List.mem_append_left _ hmem
    · simp only [List.nil_append]
      exact List.mem_append_left _ hmem
    · simp [List.mem_range']; omega

/-- C1 witness: the two-account fixture pass (one operation at index 0,
none at index 1) stops after probing index 1. -/
theorem C1_scan_stops_at_first_empty_witness :
    ∃ r, scanNextAccount wScanEnv 3 0 ⟨[], [], []⟩ = some (.ok r) ∧
      r.probed = List.range (1 + 1) ∧
      1 + 1 ∉ r.probed ∧
      ∀ j, j < 1 →
        buildAtD wScanEnv j ∈ r.accounts ∧ buildAtD wScanEnv j ∈ r.scanned ∧
          (j + 1) ∈ r.probed :=
  C1_scan_stops_at_first_empty wScanEnv 1 3
    (by decide)
    (fun j hj => by
      have hj0 : j = 0 := by omega
      subst hj0; decide)
    (fun j hj => by
      rcases (by omega : j = 0 ∨ j = 1) with h | h <;> subst h <;> decide)
    (by omega)

/-- C5 counterexample: the claim allows segwit passes to suppress the empty
trailing account, but the segwit pass's show-new-account flag is hard-coded
`true` (independently of any configuration), and a segwit pass whose
terminal (index 0) account has zero operations still includes it in the
result and reports it through the progress callback. -/
theorem C5_counterexample :
    segwitPassParams.showNewAccount = true ∧
    (scanNextAccount wSegwitScanEnv 2 0 ⟨[], [], []⟩).map
        (fun x => x.map fun r => (r.accounts.length, r.scanned.length, r.probed))
      = some (.ok (1, 1, [0])) := by
  exact ⟨rfl, rfl⟩

/-- C5 (amended): the terminal zero-operation account of a discovery pass is
included in the pass's result and reported via the progress callback iff the
pass's show-new-account flag is set; the flag is
`SHOW_LEGACY_NEW_ACCOUNT || !supportsSegwit` for the legacy pass, hard-coded
`true` for the segwit pass (its empty trailing account is never suppressed)
and hard-coded `false` for the unsplit passes (always suppressed). -/
theorem C5_amended_terminal_inclusion (env : ScanEnv) (e fuel : Nat)
    (hempty : (env.accountAt e).operations = [])
    (hnonempty : ∀ j, j < e → (env.accountAt j).operations ≠ [])
    (haddr : ∀ j, j ≤ e → (env.accountAt j).freshAddresses ≠ [])
    (hfuel : e < fuel) (SHOW_LEGACY_NEW_ACCOUNT : Bool) (currency : Currency) :
    (∃ r, scanNextAccount env fuel 0 ⟨[], [], []⟩ = some (.ok r) ∧
      r.accounts = (List.range e).map (buildAtD env)
          ++ (if env.showNewAccount then [buildAtD env e] else []) ∧
      r.scanned = r.accounts) ∧
    (legacyPassParams SHOW_LEGACY_NEW_ACCOUNT currency).showNewAccount
      = (SHOW_LEGACY_NEW_ACCOUNT || !currency.supportsSegwit) ∧
    segwitPassParams.showNewAccount = true ∧
    unsplitLegacyPassParams.showNewAccount = false ∧
    unsplitSegwitPassParams.showNewAccount = false := by
  refine ⟨⟨_, scanNextAccount_closed_form env e hempty hnonempty haddr fuel 0
    ⟨[], [], []⟩ (Nat.zero_le e) (by omega), ?_, ?_⟩, rfl, rfl, rfl, rfl⟩
  · simp [List.range_eq_range']
  · rfl

/-- C5 witness: the unsplit-legacy fixture pass (flag hard-coded false) on
an immediately-empty wallet returns no accounts and reports none. -/
theorem C5_amended_terminal_inclusion_witness :
    (∃ r, scanNextAccount wUnsplitScanEnv 1 0 ⟨[], [], []⟩ = some (.ok r) ∧
      r.accounts = (List.range 0).map (buildAtD wUnsplitScanEnv)
          ++ (if wUnsplitScanEnv.showNewAccount then [buildAtD wUnsplitScanEnv 0] else []) ∧
      r.scanned = r.accounts) ∧
    (legacyPassParams false ⟨0, true, 8⟩).showNewAccount
      = (false || !(Currency.mk 0 true 8).supportsSegwit) ∧
    segwitPassParams.showNewAccount = true ∧
    unsplitLegacyPassParams.showNewAccount = false ∧
    unsplitSegwitPassParams.showNewAccount = false :=
  C5_amended_terminal_inclusion wUnsplitScanEnv 0 1
    (by decide)
    (fun j hj => absurd hj (Nat.not_lt_zero j))
    (fun j hj => by
      have h0 : j = 0 := Nat.le_zero.mp hj
      subst h0; decide)
    (by omega) false ⟨0, true, 8⟩

/-- The clock only enters `buildAccountRaw` through `lastSyncDate`. -/
theorem buildAccountRaw_clock (njsAccount : NJSAccountState) (isSegwit isUnsplit : Bool)
    (wallet : NJSWallet) (currencyId : String) (accountIndex : Nat)
    (ops : List NJSOperation) (currencies : String → Currency) (t1 t2 : Int) :
    buildAccountRaw njsAccount isSegwit isUnsplit wallet currencyId accountIndex
        ops currencies t1
      = (buildAccountRaw njsAccount isSegwit isUnsplit wallet currencyId accountIndex
          ops currencies t2).map (fun a => { a with lastSyncDate := t1 }) := by
  cases h : njsAccount.freshAddresses <;> simp [buildAccountRaw, h, Except.map]

/-- The clock only enters `syncAccount`'s result through `lastSyncDate`. -/
theorem syncAccountResult_clock (njsWallet : NJSWallet) (njsAccount : NJSAccountState)
    (rawAccount : AccountRaw) (ev : SyncEvent) (currencies : String → Currency)
    (t1 t2 : Int) :
    syncAccountResult njsWallet njsAccount rawAccount ev t1 currencies
      = (syncAccountResult njsWallet njsAccount rawAccount ev t2 currencies).map
          (fun a => { a with lastSyncDate := t1 }) := by
  unfold syncAccountResult
  cases (coreSyncAccount ev).outcome with
  | error e => simp [Except.map]
  | ok u =>
    simp only
    rw [buildAccountRaw_clock njsAccount (isSegwitAccount rawAccount)
      (isUnsplitAccount rawAccount (SPLITTED_CURRENCIES rawAccount.currencyId))
      njsWallet rawAccount.currencyId rawAccount.index njsAccount.operations
      currencies t1 t2]
    cases buildAccountRaw njsAccount (isSegwitAccount rawAccount)
      (isUnsplitAccount rawAccount (SPLITTED_CURRENCIES rawAccount.currencyId))
      njsWallet rawAccount.currencyId rawAccount.index njsAccount.operations
      currencies t2 <;> simp [Except.map]

/-- Every operation in a built account record carries the id
`xpub-hash-type` formed from the record's xpub and the operation's own hash
and type. -/
theorem buildAccountRaw_ok_op_id (njsAccount : NJSAccountState)
    (isSegwit isUnsplit : Bool) (wallet : NJSWallet) (currencyId : String)
    (accountIndex : Nat) (ops : List NJSOperation)
    (currencies : String → Currency) (now : Int) (a : AccountRaw)
    (h : buildAccountRaw njsAccount isSegwit isUnsplit wallet currencyId
        accountIndex ops currencies now = .ok a) :
    ∀ op ∈ a.operations,
      op.id = a.xpub ++ "-" ++ op.hash ++ "-" ++ op.type.jsString := by
  cases hf : njsAccount.freshAddresses with
  | nil => simp [buildAccountRaw, hf] at h
  | cons x xs =>
    simp only [buildAccountRaw, hf] at h
    cases h
    intro op hop
    simp only [List.mem_map] at hop
    obtain ⟨src, _, rfl⟩ := hop
    rfl

/-- Every operation of a successful sync snapshot carries the
`xpub-hash-type` id (the balance overwrite does not touch operations). -/
theorem syncAccountResult_ok_op_id (njsWallet : NJSWallet)
    (njsAccount : NJSAccountState) (rawAccount : AccountRaw) (ev : SyncEvent)
    (now : Int) (currencies : String → Currency) (a : AccountRaw)
    (h : syncAccountResult njsWallet njsAccount rawAccount ev now currencies = .ok a) :
    ∀ op ∈ a.operations,
      op.id = a.xpub ++ "-" ++ op.hash ++ "-" ++ op.type.jsString := by
  unfold syncAccountResult at h
  cases hco : (coreSyncAccount ev).outcome with
  | error e => rw [hco] at h; simp at h
  | ok u =>
    rw [hco] at h
    simp only at h
    cases hb : buildAccountRaw njsAccount (isSegwitAccount rawAccount)
        (isUnsplitAccount rawAccount (SPLITTED_CURRENCIES rawAccount.currencyId))
        njsWallet rawAccount.currencyId rawAccount.index njsAccount.operations
        currencies now with
    | error e => rw [hb] at h; simp at h
    | ok b =>
      rw [hb] at h
      simp only [Except.ok.injEq] at h
      subst h
      exact buildAccountRaw_ok_op_id njsAccount (isSegwitAccount rawAccount)
        (isUnsplitAccount rawAccount (SPLITTED_CURRENCIES rawAccount.currencyId))
        njsWallet rawAccount.currencyId rawAccount.index njsAccount.operations
        currencies now b hb

/-- C4: syncing the same account twice against unchanged chain state yields
the same snapshot — equal balance and equal operation lists with identical
ids and identical ordering — and each operation id is the string formed of
the extended public key, the transaction hash and the operation type. -/
theorem C4_sync_idempotent (pool : PoolState) (rawAccount : AccountRaw)
    (ev : SyncEvent) (currencies : String → Currency) (t1 t2 : Int)
    (a1 a2 : AccountRaw)
    (h1 : (syncAccount pool rawAccount ev t1 currencies).result = .ok a1)
    (h2 : (syncAccount pool rawAccount ev t2 currencies).result = .ok a2) :
    a1.balance = a2.balance ∧ a1.operations = a2.operations ∧
    ∀ op ∈ a1.operations,
      op.id = a1.xpub ++ "-" ++ op.hash ++ "-" ++ op.type.jsString := by
  have hid : ∀ op ∈ a1.operations,
      op.id = a1.xpub ++ "-" ++ op.hash ++ "-" ++ op.type.jsString :=
    syncAccountResult_ok_op_id _ _ rawAccount ev t1 currencies a1 h1
  have hres : (syncAccount pool rawAccount ev t1 currencies).result
      = ((syncAccount pool rawAccount ev t2 currencies).result).map
          (fun a => { a with lastSyncDate := t1 }) :=
    syncAccountResult_clock _ _ rawAccount ev currencies t1 t2
  rw [h1, h2] at hres
  simp only [Except.map, Except.ok.injEq] at hres
  subst hres
  exact ⟨rfl, rfl, hid⟩

/-- C4 witness: the fixture sync run at two different clock values. -/
theorem C4_sync_idempotent_witness :
    (wSyncOk 3).balance = (wSyncOk 7).balance ∧
    (wSyncOk 3).operations = (wSyncOk 7).operations ∧
    ∀ op ∈ (wSyncOk 3).operations,
      op.id = (wSyncOk 3).xpub ++ "-" ++ op.hash ++ "-" ++ op.type.jsString :=
  C4_sync_idempotent wSyncPool wSyncRaw ⟨.SYNCHRONIZATION_SUCCEED, none⟩
    wCurrencies 3 7 (wSyncOk 3) (wSyncOk 7) (by rfl) (by rfl)

/-- With a nonempty fresh-address list the account build succeeds (with the
defaulted ok value). -/
theorem buildAccountRaw_isOk (njsAccount : NJSAccountState)
    (isSegwit isUnsplit : Bool) (wallet : NJSWallet) (currencyId : String)
    (accountIndex : Nat) (ops : List NJSOperation)
    (currencies : String → Currency) (now : Int)
    (h : njsAccount.freshAddresses ≠ []) :
    buildAccountRaw njsAccount isSegwit isUnsplit wallet currencyId
        accountIndex ops currencies now
      = .ok ((buildAccountRaw njsAccount isSegwit isUnsplit wallet currencyId
          accountIndex ops currencies now).toOption.getD default) := by
  cases hb : buildAccountRaw njsAccount isSegwit isUnsplit wallet currencyId
      accountIndex ops currencies now with
  | ok v => simp [hb, Except.toOption]
  | error e =>
    exfalso
    cases hf : njsAccount.freshAddresses with
    | nil => exact h hf
    | cons x xs => simp [buildAccountRaw, hf] at hb

/-- With a successful terminal event and a nonempty fresh-address list the
sync result is a snapshot, not an error. -/
theorem syncAccountResult_isOk (njsWallet : NJSWallet)
    (njsAccount : NJSAccountState) (rawAccount : AccountRaw) (ev : SyncEvent)
    (now : Int) (currencies : String → Currency)
    (hev : ev.code = .SYNCHRONIZATION_SUCCEED)
    (haddr : njsAccount.freshAddresses ≠ []) :
    ∃ a, syncAccountResult njsWallet njsAccount rawAccount ev now currencies
      = .ok a := by
  have hok : (coreSyncAccount ev).outcome = .ok () := by
    simp [coreSyncAccount, hev]
  have hb := buildAccountRaw_isOk njsAccount (isSegwitAccount rawAccount)
    (isUnsplitAccount rawAccount (SPLITTED_CURRENCIES rawAccount.currencyId))
    njsWallet rawAccount.currencyId rawAccount.index njsAccount.operations
    currencies now haddr
  obtain ⟨b, hbe⟩ : ∃ b, buildAccountRaw njsAccount (isSegwitAccount rawAccount)
      (isUnsplitAccount rawAccount (SPLITTED_CURRENCIES rawAccount.currencyId))
      njsWallet rawAccount.currencyId rawAccount.index njsAccount.operations
      currencies now = .ok b := ⟨_, hb⟩
  refine ⟨{ b with balance := njsAccount.balance }, ?_⟩
  unfold syncAccountResult
  simp only [hok]
  rw [hbe]

/-- C8: a failed wallet lookup during sync recreates the wallet through
`getOrCreateWallet`, logs a recovery warning and proceeds; a failed account
lookup recreates the account from the stored extended public key through
`newAccountWithExtendedKeyInfo` (the decoded xpub is pushed onto the
creation info) instead of failing; and with a successful terminal event and
a nonempty fresh-address list the sync returns a snapshot, not an error. -/
theorem C8_wallet_account_recovery (pool : PoolState) (rawAccount : AccountRaw)
    (ev : SyncEvent) (now : Int) (currencies : String → Currency) :
    (pool.getWallet (accountIdDecode rawAccount.id).walletName = none →
      (syncAccount pool rawAccount ev now currencies).recreatedWallet = true ∧
      (syncAccount pool rawAccount ev now currencies).walletUsed
        = getOrCreateWallet pool (accountIdDecode rawAccount.id).walletName
            rawAccount.currencyId (isSegwitAccount rawAccount)
            (isUnsplitAccount rawAccount (SPLITTED_CURRENCIES rawAccount.currencyId)) ∧
      "Have to reimport the account..."
        ∈ (syncAccount pool rawAccount ev now currencies).warnings) ∧
    ((syncAccount pool rawAccount ev now currencies).walletUsed.accounts[rawAccount.index]?
        = none →
      (syncAccount pool rawAccount ev now currencies).recreatedAccount = true ∧
      (syncAccount pool rawAccount ev now currencies).accountUsed
        = (syncAccount pool rawAccount ev now currencies).walletUsed.accountFromExtendedKeys
            ((syncAccount pool rawAccount ev now currencies).walletUsed.extendedKeysAt
                rawAccount.index ++ [(accountIdDecode rawAccount.id).xpub]) ∧
      "Have to recreate the account..."
        ∈ (syncAccount pool rawAccount ev now currencies).warnings) ∧
    (ev.code = .SYNCHRONIZATION_SUCCEED →
      (syncAccount pool rawAccount ev now currencies).accountUsed.freshAddresses ≠ [] →
      ∃ a, (syncAccount pool rawAccount ev now currencies).result = .ok a) := by
  refine ⟨?_, ?_, ?_⟩
  · intro hw
    simp only [syncAccount, syncAccountResolve, hw]
    cases hg : (getOrCreateWallet pool (accountIdDecode rawAccount.id).walletName
        rawAccount.currencyId (isSegwitAccount rawAccount)
        (isUnsplitAccount rawAccount
          (SPLITTED_CURRENCIES rawAccount.currencyId))).accounts[rawAccount.index]? <;>
      simp [hg]
  · intro ha
    cases hw : pool.getWallet (accountIdDecode rawAccount.id).walletName with
    | some w =>
      simp only [syncAccount, syncAccountResolve, hw] at ha ⊢
      simp [ha]
    | none =>
      simp only [syncAccount, syncAccountResolve, hw] at ha ⊢
      simp [ha]
  · intro hev haddr
    exact syncAccountResult_isOk (syncAccountResolve pool rawAccount).1
      (syncAccountResolve pool rawAccount).2.1 rawAccount ev now currencies hev haddr

/-- C8 witness: a pool whose wallet record was deleted externally and whose
recreated wallet has also lost the account record: the sync recreates both,
logs both warnings and succeeds. -/
theorem C8_wallet_account_recovery_witness :
    (syncAccount wLostPool wSyncRaw ⟨.SYNCHRONIZATION_SUCCEED, none⟩ 0
        wCurrencies).recreatedWallet = true ∧
    (syncAccount wLostPool wSyncRaw ⟨.SYNCHRONIZATION_SUCCEED, none⟩ 0
        wCurrencies).recreatedAccount = true ∧
    "Have to reimport the account..."
      ∈ (syncAccount wLostPool wSyncRaw ⟨.SYNCHRONIZATION_SUCCEED, none⟩ 0
          wCurrencies).warnings ∧
    "Have to recreate the account..."
      ∈ (syncAccount wLostPool wSyncRaw ⟨.SYNCHRONIZATION_SUCCEED, none⟩ 0
          wCurrencies).warnings ∧
    ∃ a, (syncAccount wLostPool wSyncRaw ⟨.SYNCHRONIZATION_SUCCEED, none⟩ 0
        wCurrencies).result = .ok a := by
  obtain ⟨h1, h2, h3⟩ := C8_wallet_account_recovery wLostPool wSyncRaw
    ⟨.SYNCHRONIZATION_SUCCEED, none⟩ 0 wCurrencies
  obtain ⟨hrw, _, hwarn⟩ := h1 (by rfl)
  obtain ⟨hra, _, hwarn2⟩ := h2 (by rfl)
  exact ⟨hrw, hra, hwarn, hwarn2, h3 rfl (by decide)⟩

/-- C7 counterexample: an open failure whose message indicates an HID
disconnection is retried once and then surfaces *unchanged* — not as a
DisconnectedDevice error — because `mapError` is applied only to errors of
the job, never to open errors. -/
theorem C7_counterexample :
    hasHIDMessage ⟨"Error", "cannot open HID device"⟩ = true ∧
    (withDevice wOpenFailEnv).openAttempts = 2 ∧
    (withDevice wOpenFailEnv).result = .error ⟨"Error", "cannot open HID device"⟩ ∧
    (withDevice wOpenFailEnv).result
      ≠ .error (DisconnectedDevice "cannot open HID device") := by
  have hres : (withDevice wOpenFailEnv).result
      = .error ⟨"Error", "cannot open HID device"⟩ := rfl
  refine ⟨by decide, rfl, hres, ?_⟩
  rw [hres]
  intro h
  simp [DisconnectedDevice] at h

/-- C7 (amended): a failed transport open is retried once and, failing
again, the open error propagates unchanged (it is not mapped to
DisconnectedDevice and no transport is closed, none having been opened); an
error from the job whose failure message indicates an HID disconnection
surfaces as DisconnectedDevice; any other job error propagates unchanged;
the job's success value is returned; and whenever a transport was opened it
is closed, before the result is surfaced. -/
theorem C7_amended_device_access (α : Type) (env : DeviceEnv α) :
    (∀ e0, env.openResults 0 = .error e0 →
      (withDevice env).openAttempts = 2 ∧
      (∀ t, env.openResults 1 = .ok t → (withDevice env).opened = some t) ∧
      (∀ e1, env.openResults 1 = .error e1 →
        (withDevice env).result = .error e1 ∧ (withDevice env).opened = none ∧
        (withDevice env).closed = [])) ∧
    (∀ t, (withDevice env).opened = some t →
      (∀ e, env.jobRun t = .error e → hasHIDMessage e = true →
        (withDevice env).result = .error (DisconnectedDevice e.message)) ∧
      (∀ e, env.jobRun t = .error e → hasHIDMessage e = false →
        (withDevice env).result = .error e) ∧
      (∀ a, env.jobRun t = .ok a → (withDevice env).result = .ok a) ∧
      (withDevice env).closed = [t] ∧
      ∃ pre, (withDevice env).trace = pre ++ [.closedTransport t, .surfaced]) := by
  cases h0 : env.openResults 0 with
  | ok t0 =>
    constructor
    · intro e0 he0
      exact absurd he0 (by simp)
    · intro t hop
      have ht : t = t0 := by
        simp [withDevice, retryOpen, h0] at hop
        exact hop.symm
      subst ht
      refine ⟨?_, ?_, ?_, ?_, ⟨[.openSucceeded t, .jobSettled], ?_⟩⟩
      · intro e hj hhid
        simp [withDevice, retryOpen, h0, hj, mapError, hhid]
      · intro e hj hhid
        simp [withDevice, retryOpen, h0, hj, mapError, hhid]
      · intro a hj
        simp [withDevice, retryOpen, h0, hj]
      · simp [withDevice, retryOpen, h0]
      · simp [withDevice, retryOpen, h0]
  | error e0' =>
    cases h1 : env.openResults 1 with
    | ok t1 =>
      constructor
      · intro e0 _
        refine ⟨by simp [withDevice, retryOpen, h0, h1], ?_, ?_⟩
        · intro t hop
          simp only [Except.ok.injEq] at hop
          subst hop
          simp [withDevice, retryOpen, h0, h1]
        · intro e1 he1
          exact absurd he1 (by simp)
      · intro t hop
        have ht : t = t1 := by
          simp [withDevice, retryOpen, h0, h1] at hop
          exact hop.symm
        subst ht
        refine ⟨?_, ?_, ?_, ?_, ⟨[.openFailed, .openSucceeded t, .jobSettled], ?_⟩⟩
        · intro e hj hhid
          simp [withDevice, retryOpen, h0, h1, hj, mapError, hhid]
        · intro e hj hhid
          simp [withDevice, retryOpen, h0, h1, hj, mapError, hhid]
        · intro a hj
          simp [withDevice, retryOpen, h0, h1, hj]
        · simp [withDevice, retryOpen, h0, h1]
        · simp [withDevice, retryOpen, h0, h1]
    | error e1' =>
      constructor
      · intro e0 _
        refine ⟨by simp [withDevice, retryOpen, h0, h1], ?_, ?_⟩
        · intro t hop
          exact absurd hop (by simp)
        · intro e1 he1
          simp only [Except.error.injEq] at he1
          subst he1
          simp [withDevice, retryOpen, h0, h1]
      · intro t hop
        simp [withDevice, retryOpen, h0, h1] at hop

/-- C7 witness: the fixture device opens on the second attempt; the job's
HID-message error surfaces as DisconnectedDevice and the transport is
closed. -/
theorem C7_amended_device_access_witness :
    (withDevice wRetryEnv).openAttempts = 2 ∧
    (withDevice wRetryEnv).opened = some ⟨7⟩ ∧
    (withDevice wRetryEnv).result = .error (DisconnectedDevice "HID gone") ∧
    (withDevice wRetryEnv).closed = [⟨7⟩] := by
  obtain ⟨hopen, hjob⟩ := C7_amended_device_access Nat wRetryEnv
  obtain ⟨hatt, hok, _⟩ := hopen ⟨"Error", "busy"⟩ rfl
  have hop : (withDevice wRetryEnv).opened = some ⟨7⟩ := hok ⟨7⟩ rfl
  obtain ⟨hhid, _, _, hclosed, _⟩ := hjob ⟨7⟩ hop
  exact ⟨hatt, hop, hhid ⟨"TransportError", "HID gone"⟩ rfl (by decide), hclosed⟩

/-- C10 (evaluation of the code at the failing inputs): exactly one receiver
is subscribed per synchronization, but on a SYNCHRONIZATION_FAILED terminal
event the promise rejects with the receiver still subscribed, and on the
discovery scan path the unsubscribe thunk resolved on success is discarded,
so the receiver stays subscribed there too; only syncAccount's success path
unsubscribes. -/
theorem C10_receiver_leaks :
    (coreSyncAccount ⟨.SYNCHRONIZATION_FAILED, none⟩).subscribersAtSettle = 1 ∧
    (coreSyncAccount ⟨.SYNCHRONIZATION_FAILED, none⟩).resolvedWithUnsub = false ∧
    syncAccountSubscribersAfter ⟨.SYNCHRONIZATION_FAILED, none⟩ = 1 ∧
    scanSubscribersAfter ⟨.SYNCHRONIZATION_SUCCEED, none⟩ = 1 ∧
    syncAccountSubscribersAfter ⟨.SYNCHRONIZATION_SUCCEED, none⟩ = 0 := by
  decide
